import Mathlib

attribute [local semireducible] Rat.add Rat.mul Rat.sub Rat.inv

/-!
# Verification of the legal-transcript reflow engine

This file embeds, in Lean 4, the reflow + offset-tracking engine of the
repository:

* `Reflow` models `Customers/Eve Legal/reflow_markdown_with_line_numbers.py`
  (the plain reflow script).
* `ReflowOff` models the offset-tracking variant, the notebook cell whose
  source is produced by `update_notebook.py`
  (`reflow_page_with_line_numbers_and_offsets`,
  `reflow_document_with_offsets`).

Modelling conventions:

* Python `str` is modelled as `List Char` (`Str`).  Character classification
  (`isdigit`, `isalnum`, whitespace for `strip`) is modelled on the ASCII
  subset via Lean's `Char.isDigit`/`Char.isAlphanum`/`Char.isWhitespace` for
  the pipeline.  For the line-number classifier, whose Python semantics
  depends on the difference between `str.isdigit` and `int()`, the Unicode
  digit classes and the `int()` exception path are additionally modelled
  (`isDecimalDigit`, `isDigitLikeChar`, `is_line_number_checked`) over a
  documented repertoire of code points.
* Python `float` is modelled as `ℚ`; `float(s)` is modelled on the decimal
  numeral grammar (optional sign, digits, optional fraction), the subset the
  document sources exercise.  Anything else fails, as `float` does on junk
  such as `"bad"`.
* Fallible code (`raise ValueError`) is modelled with `Except Str`, carrying
  the source's message text; `try/except ... continue` becomes a `match` on
  the `Except` that skips the unit.
* The notebook cell is embedded as its own docstrings and the repository's
  demo data (`notebooks/demo_offset_visualization.py`) document it: the
  source descriptor regex `D\((\d+),([^)]+)\)` matches `D(page,...)` and the
  emitted line/page separators are single newline characters.  (The generator
  double-escapes these tokens inside its raw string; the embedding reads the
  cell at the level of the algorithm it documents and self-tests.)
* Python's stable `sorted`/`list.sort` with a key is modelled by a stable
  insertion sort (`sortByKey`); any two stable sorts by the same key agree.
* The `words` array of a page is read by the cell into a `word_lookup` that
  is never used afterwards (dead local), so it is not part of the model.
-/

/-- Python `str`, modelled as a list of characters. -/
abbrev Str := List Char

/-- Embed a Lean string literal as a `Str`. -/
def strOf (s : String) : Str := s.data

/-- A single newline, `"\n"`. -/
def nl : Str := strOf "\n"

/-- Python slicing `t[a:b]` for `0 ≤ a ≤ b` (out-of-range indices clamp,
exactly as in Python). -/
def pyslice (t : Str) (a b : Nat) : Str := (t.drop a).take (b - a)

/-- Python `sep.join(parts)`. -/
def joinSep (sep : Str) : List Str → Str
  | [] => []
  | [p] => p
  | p :: ps => p ++ sep ++ joinSep sep ps

/-- Numeric value of an ASCII digit. -/
def digitVal (c : Char) : Nat := c.toNat - '0'.toNat

/-- Python `int(s)` on a string of decimal digits. -/
def digitsToNat (ds : Str) : Nat := ds.foldl (fun a c => a * 10 + digitVal c) 0

/-- Python `str.strip()`: drop whitespace from both ends. -/
def pstrip (s : Str) : Str :=
  ((s.dropWhile Char.isWhitespace).reverse.dropWhile Char.isWhitespace).reverse

/-- Python `s.split(c)` for a single-character separator: `"".split(',') = [""]`,
`",b".split(',') = ["", "b"]`, and so on. -/
def splitOn (c : Char) : Str → List Str
  | [] => [[]]
  | a :: rest =>
    match splitOn c rest with
    | h :: t => if a = c then [] :: h :: t else (a :: h) :: t
    | [] => [[a]]

/-- Value of a digit string read as the integer part of a decimal numeral. -/
def intPartVal (ds : Str) : ℚ := (digitsToNat ds : ℚ)

/-- Value of a digit string read as the fractional part of a decimal numeral. -/
def fracPartVal (ds : Str) : ℚ := (digitsToNat ds : ℚ) / ((10 : ℚ) ^ ds.length)

/-- Unsigned decimal numeral: digits with an optional single fraction point,
at least one digit overall. -/
def parseUnsignedDec (s : Str) : Option ℚ :=
  let ip := s.takeWhile Char.isDigit
  let rest := s.dropWhile Char.isDigit
  match rest with
  | [] => if ip.isEmpty then none else some (intPartVal ip)
  | '.' :: fp =>
    if fp.all Char.isDigit && (!ip.isEmpty || !fp.isEmpty) then
      some (intPartVal ip + fracPartVal fp)
    else none
  | _ => none

/-- Python `float(s)` restricted to plain decimal numerals (see header). -/
def parseDecimal (s : Str) : Option ℚ :=
  match s with
  | '-' :: rest => (parseUnsignedDec rest).map (fun q => -q)
  | '+' :: rest => parseUnsignedDec rest
  | _ => parseUnsignedDec s

/-- `[float(x) for x in parts]`: all parts must convert. -/
def parseFloats : List Str → Option (List ℚ)
  | [] => some []
  | s :: rest =>
    match parseDecimal s, parseFloats rest with
    | some q, some qs => some (q :: qs)
    | _, _ => none

/-- Decimal rendering of a natural number (Python `str(n)` / f-string). -/
def natToStr (n : Nat) : Str := Nat.toDigits 10 n

/-- Decimal rendering of an integer. -/
def intToStr (i : Int) : Str :=
  if i < 0 then '-' :: natToStr i.natAbs else natToStr i.natAbs

/-- The anchored regex match `re.match(r'D\((\d+),([^)]+)\)', source)`:
`D(`, one maximal nonempty digit run (group 1), `,`, one maximal nonempty
run of non-`)` characters (group 2), `)`; trailing characters are allowed
because `re.match` only anchors at the start. -/
def matchD (source : Str) : Option (Nat × Str) :=
  match source with
  | 'D' :: '(' :: rest =>
    let ds := rest.takeWhile Char.isDigit
    let rest1 := rest.dropWhile Char.isDigit
    if ds.isEmpty then none
    else
      match rest1 with
      | ',' :: rest2 =>
        let body := rest2.takeWhile (fun c => c ≠ ')')
        let rest3 := rest2.dropWhile (fun c => c ≠ ')')
        if body.isEmpty then none
        else
          match rest3 with
          | ')' :: _ => some (digitsToNat ds, body)
          | _ => none
      | _ => none
  | _ => none

/-- `if len(coords) == 8 ... elif len(coords) == 4 ... else error`, the
normalization step shared by both variants of `parse_source_coordinates`. -/
def normalize_coords (coords : List ℚ) : Option (ℚ × ℚ × ℚ × ℚ) :=
  match coords with
  | [x1, y1, x2, y2, x3, y3, x4, y4] =>
    some (min x1 x4, min y1 y2, max x2 x3, max y3 y4)
  | [left_x, top_y, width, height] =>
    some (left_x, top_y, left_x + width, top_y + height)
  | _ => none

/-- One entry of a page's `lines` array: `content`, `source`, and the
optional `span` offsets (`span.offset` / `span.length`; an absent `span`
object is modelled by both fields absent). -/
structure RawLine where
  content : Str
  source : Str
  span_offset : Option Int := none
  span_length : Option Int := none
deriving DecidableEq

/-- One page of the analysis result (`pageNumber`, `lines`). -/
structure PageData where
  pageNumber : Int
  lines : List RawLine
deriving DecidableEq

/-- One entry of `result.contents` (`kind`, `pages`). -/
structure ContentData where
  kind : Str
  pages : List PageData
deriving DecidableEq

/-- The document-analysis result: `json_data['result']['contents']`. -/
structure DocumentJson where
  contents : List ContentData
deriving DecidableEq

/-- Decidable equality of `Except` results (needed to evaluate the embedded
functions on concrete inputs). -/
instance instDecEqExcept {e a : Type} [DecidableEq e] [DecidableEq a] :
    DecidableEq (Except e a)
  | .error x, .error y =>
    decidable_of_iff (x = y) (by constructor
                                 · rintro rfl; rfl
                                 · intro h; injection h)
  | .error _, .ok _ => .isFalse (fun h => Except.noConfusion h)
  | .ok _, .error _ => .isFalse (fun h => Except.noConfusion h)
  | .ok x, .ok y =>
    decidable_of_iff (x = y) (by constructor
                                 · rintro rfl; rfl
                                 · intro h; injection h)

/-- `target_page is not None and page_number != target_page`: the page is
skipped by the document loop. -/
def skipPage (target_page : Option Int) (n : Int) : Bool :=
  match target_page with
  | some t => decide (n ≠ t)
  | none => false

/-- Stable insertion step: place `a` before the first element whose key is
not smaller (Python sort stability). -/
def insertByKey {α : Type} (key : α → ℚ) (a : α) : List α → List α
  | [] => [a]
  | b :: l => if key a ≤ key b then a :: b :: l else b :: insertByKey key a l

/-- Stable sort by a rational key, the behaviour of Python's `sorted`
with `key=...` (any two stable sorts by the same key agree). -/
def sortByKey {α : Type} (key : α → ℚ) (l : List α) : List α :=
  l.foldr (insertByKey key) []

namespace Reflow

/-- `LineElement` of the plain script. -/
structure LineElement where
  content : Str
  y_position : ℚ
  x_position : ℚ
  page_number : Nat
  is_line_number : Bool
deriving DecidableEq

/-- `parse_source_coordinates` of the plain script: returns
`(page_number, left_x, top_y, right_x, bottom_y)` or raises `ValueError`. -/
def parse_source_coordinates (source : Str) : Except Str (Nat × ℚ × ℚ × ℚ × ℚ) :=
  match matchD source with
  | none => .error (strOf "Invalid source format: " ++ source)
  | some (page_number, body) =>
    match parseFloats (splitOn ',' body) with
    | none => .error (strOf "could not convert string to float")
    | some coords =>
      match normalize_coords coords with
      | some (left_x, top_y, right_x, bottom_y) =>
        .ok (page_number, left_x, top_y, right_x, bottom_y)
      | none => .error (strOf "Unexpected coordinate count in source: " ++ source)

/-- `content.strip().isdigit()`: nonempty and all decimal digits. -/
def str_isdigit (s : Str) : Bool := !s.isEmpty && s.all Char.isDigit

/-- `is_line_number`: trimmed text is all digits with value in `[1, 99]`. -/
def is_line_number (content : Str) : Bool :=
  str_isdigit (pstrip content) &&
    decide (1 ≤ digitsToNat (pstrip content)) &&
    decide (digitsToNat (pstrip content) ≤ 99)

/-- `is_noise_element`: a fixed set of bullet glyphs, or a single
non-alphanumeric character. -/
def is_noise_element (content : Str) : Bool :=
  let c := pstrip content
  decide (c = strOf "·") || decide (c = strOf "•") || decide (c = strOf "∙") ||
    (decide (c.length = 1) && !c.all Char.isAlphanum)

/-- The `for line in page_data.get('lines', [])` loop of
`extract_lines_from_page`: skip units with empty source/content, skip units
whose source does not parse (`except ValueError: continue`), skip noise. -/
def extract_loop : List RawLine → List LineElement
  | [] => []
  | line :: rest =>
    let content := pstrip line.content
    let source := line.source
    if source.isEmpty || content.isEmpty then extract_loop rest
    else
      match parse_source_coordinates source with
      | .error _ => extract_loop rest
      | .ok (parsed_page, left_x, top_y, _, _) =>
        if is_noise_element content then extract_loop rest
        else
          { content := content, y_position := top_y, x_position := left_x,
            page_number := parsed_page,
            is_line_number := is_line_number content } :: extract_loop rest

/-- `extract_lines_from_page` of the plain script. -/
def extract_lines_from_page (page_data : PageData) : List LineElement :=
  extract_loop page_data.lines

/-- The grouping walk of the plain script: `current_y` is the `y_position`
of the element that opened the current group, and an element joins when
`abs(element.y_position - current_y) <= y_tolerance`. -/
def gather (y_tolerance : ℚ) (current_y : ℚ) (current_group : List LineElement) :
    List LineElement → List (List LineElement)
  | [] => [current_group]
  | e :: rest =>
    if |e.y_position - current_y| ≤ y_tolerance then
      gather y_tolerance current_y (current_group ++ [e]) rest
    else
      current_group :: gather y_tolerance e.y_position [e] rest

/-- `group_lines_by_vertical_position` of the plain script. -/
def group_lines_by_vertical_position (elements : List LineElement)
    (y_tolerance : ℚ) : List (List LineElement) :=
  match sortByKey (fun e => e.y_position) elements with
  | [] => []
  | e :: rest => gather y_tolerance e.y_position [e] rest

/-- The body of the `for group in line_groups` loop of
`reflow_page_with_line_numbers`: sort by `x_position`, split off line
numbers, drop the row when no content remains, otherwise emit one line. -/
def process_group (sep : Str) (out_lines : List Str) (group : List LineElement) :
    List Str :=
  let g := sortByKey (fun e => e.x_position) group
  let line_numbers := g.filter (fun e => e.is_line_number)
  let content_elements := g.filter (fun e => !e.is_line_number)
  if content_elements.isEmpty then out_lines
  else
    let combined_content := joinSep (strOf " ") (content_elements.map (fun e => e.content))
    match line_numbers with
    | [] => out_lines ++ [combined_content]
    | n :: _ => out_lines ++ [n.content ++ sep ++ combined_content]

/-- `reflow_page_with_line_numbers` of the plain script. -/
def reflow_page_with_line_numbers (page_data : PageData) (sep : Str) : Str :=
  let elements := extract_lines_from_page page_data
  if elements.isEmpty then []
  else
    let line_groups := group_lines_by_vertical_position elements (3/20)
    joinSep nl (line_groups.foldl (process_group sep) [])

/-- `f"<!-- Page {page_number} -->\n"`, the per-page marker part. -/
def page_marker (n : Int) : Str :=
  strOf "<!-- Page " ++ intToStr n ++ strOf " -->\n"

/-- The `for page in pages` loop of `reflow_document`, building
`output_parts`: skip filtered pages; for a page with nonempty output append
the marker (only without a filter), the output, and a blank part. -/
def buildParts (target_page : Option Int) (sep : Str) : List PageData → List Str
  | [] => []
  | page :: rest =>
    if skipPage target_page page.pageNumber then buildParts target_page sep rest
    else
      let page_output := reflow_page_with_line_numbers page sep
      (if page_output.isEmpty then []
       else
        (match target_page with
         | none => [page_marker page.pageNumber]
         | some _ => []) ++ [page_output, []]) ++
      buildParts target_page sep rest

/-- `reflow_document` of the plain script (the non-fatal `kind` warning has
no effect on the result and is not modelled). -/
def reflow_document (json_data : DocumentJson) (target_page : Option Int)
    (sep : Str) : Except Str Str :=
  match json_data.contents with
  | [] => .error (strOf "No contents found in JSON data")
  | content :: _ =>
    if content.pages.isEmpty then .error (strOf "No pages found in document content")
    else .ok (joinSep nl (buildParts target_page sep content.pages))

end Reflow

namespace ReflowOff

/-- `LineElement` of the offset-tracking cell (adds the original-span and
bounding-box fields). -/
structure LineElement where
  content : Str
  y_position : ℚ
  x_position : ℚ
  page_number : Nat
  is_line_number : Bool
  original_offset : Option Int := none
  original_length : Option Int := none
  bbox : Option Str := none
deriving DecidableEq

/-- The `offset` dictionary `{"start": ..., "end": ...}` (the `end` key is
called `stop` here because `end` is a Lean keyword). -/
structure Span where
  start : Nat
  stop : Nat
deriving DecidableEq

/-- `WordOffsetInfo`. -/
structure WordOffsetInfo where
  content : Str
  offset : Span
  bbox : Str
  original_offset : Option Int := none
deriving DecidableEq

/-- `LineOffsetInfo`. -/
structure LineOffsetInfo where
  content : Str
  offset : Span
  bbox : Option Str := none
  words : List WordOffsetInfo := []
deriving DecidableEq

/-- `PageOffsetInfo`. -/
structure PageOffsetInfo where
  page_number : Int
  offset : Span
  lines : List LineOffsetInfo := []
deriving DecidableEq

/-- `OffsetMapping`. -/
structure OffsetMapping where
  pages : List PageOffsetInfo := []
deriving DecidableEq

/-- `parse_source_coordinates` of the offset-tracking cell: identical
normalization, but also returns the raw source string as `bbox_str`. -/
def parse_source_coordinates (source : Str) :
    Except Str (Nat × ℚ × ℚ × ℚ × ℚ × Str) :=
  match matchD source with
  | none => .error (strOf "Invalid source format: " ++ source)
  | some (page_number, body) =>
    match parseFloats (splitOn ',' body) with
    | none => .error (strOf "could not convert string to float")
    | some coords =>
      match normalize_coords coords with
      | some (left_x, top_y, right_x, bottom_y) =>
        .ok (page_number, left_x, top_y, right_x, bottom_y, source)
      | none => .error (strOf "Unexpected coordinate count: " ++ source)

/-- `is_line_number` of the offset-tracking cell (same text as the plain
script's). -/
def is_line_number (content : Str) : Bool :=
  Reflow.str_isdigit (pstrip content) &&
    decide (1 ≤ digitsToNat (pstrip content)) &&
    decide (digitsToNat (pstrip content) ≤ 99)

/-- `is_noise_element` of the offset-tracking cell (same text as the plain
script's). -/
def is_noise_element (content : Str) : Bool :=
  let c := pstrip content
  decide (c = strOf "·") || decide (c = strOf "•") || decide (c = strOf "∙") ||
    (decide (c.length = 1) && !c.all Char.isAlphanum)

/-- The extraction loop of the offset-tracking cell: noise is tested before
the source, the parsed source is kept as `bbox`, and the optional original
span offsets are carried along; parse failures skip the unit
(`except (ValueError, KeyError): continue`). -/
def extract_loop : List RawLine → List LineElement
  | [] => []
  | line :: rest =>
    let content := pstrip line.content
    if content.isEmpty || is_noise_element content then extract_loop rest
    else if line.source.isEmpty then extract_loop rest
    else
      match parse_source_coordinates line.source with
      | .error _ => extract_loop rest
      | .ok (page_num, left_x, top_y, _, _, bbox) =>
        { content := content, y_position := top_y, x_position := left_x,
          page_number := page_num,
          is_line_number := is_line_number content,
          original_offset := line.span_offset,
          original_length := line.span_length,
          bbox := some bbox } :: extract_loop rest

/-- `extract_lines_from_page` of the offset-tracking cell. -/
def extract_lines_from_page (page_data : PageData) : List LineElement :=
  extract_loop page_data.lines

/-- The grouping walk of the offset-tracking cell: the anchor is
`current_group[0]` and the join test is strict,
`abs(element.y_position - current_group[0].y_position) < y_tolerance`. -/
def gather (y_tolerance : ℚ) (anchor_y : ℚ) (current_group : List LineElement) :
    List LineElement → List (List LineElement)
  | [] => [current_group]
  | e :: rest =>
    if |e.y_position - anchor_y| < y_tolerance then
      gather y_tolerance anchor_y (current_group ++ [e]) rest
    else
      current_group :: gather y_tolerance e.y_position [e] rest

/-- `group_lines_by_vertical_position` of the offset-tracking cell. -/
def group_lines_by_vertical_position (elements : List LineElement)
    (y_tolerance : ℚ) : List (List LineElement) :=
  match sortByKey (fun e => e.y_position) elements with
  | [] => []
  | e :: rest => gather y_tolerance e.y_position [e] rest

/-- The running line-assembly state: the offset cursor, the concatenation of
`line_parts` so far, and the `word_offset_infos` list. -/
structure BuildSt where
  cursor : Nat
  parts : Str
  winfos : List WordOffsetInfo
deriving DecidableEq

/-- The `for i, elem in enumerate(content_elements)` loop: a single space
before every content unit except the first, and a `WordOffsetInfo` recorded
at the exact emitted position of each unit. -/
def add_content : BuildSt → Bool → List LineElement → BuildSt
  | b, _, [] => b
  | b, first, e :: rest =>
    let b1 : BuildSt :=
      if first then b
      else { cursor := b.cursor + 1, parts := b.parts ++ [' '], winfos := b.winfos }
    let w : WordOffsetInfo :=
      { content := e.content,
        offset := { start := b1.cursor, stop := b1.cursor + e.content.length },
        bbox := e.bbox.getD [],
        original_offset := e.original_offset }
    add_content
      { cursor := b1.cursor + e.content.length,
        parts := b1.parts ++ e.content,
        winfos := b1.winfos ++ [w] } false rest

/-- Per-page assembly state: cursor, `output_lines` and `line_offset_infos`. -/
structure PageState where
  cursor : Nat
  out_lines : List Str
  line_infos : List LineOffsetInfo
deriving DecidableEq

/-- The `if line_numbers:` block of the assembly loop: emit the leftmost
line number and the separator, recording the number's WordSpan before the
separator advance (an empty list means no line number on the row). -/
def numberPrefix (sep : Str) (cursor : Nat) : List LineElement → BuildSt
  | [] => { cursor := cursor, parts := [], winfos := [] }
  | n :: _ =>
    { cursor := cursor + n.content.length + sep.length,
      parts := n.content ++ sep,
      winfos := [{ content := n.content,
                   offset := { start := cursor, stop := cursor + n.content.length },
                   bbox := n.bbox.getD [],
                   original_offset := n.original_offset }] }

/-- The body of the `for group in line_groups` loop of
`reflow_page_with_line_numbers_and_offsets`: sort by `x_position`, drop the
row if no content units remain, otherwise emit the leftmost line number (if
any), the separator, and the content units, recording word and line spans,
and advance the cursor by one for the newline. -/
def process_group (sep : Str) (st : PageState) (group : List LineElement) :
    PageState :=
  let g := sortByKey (fun e => e.x_position) group
  let line_numbers := g.filter (fun e => e.is_line_number)
  let content_elements := g.filter (fun e => !e.is_line_number)
  if content_elements.isEmpty then st
  else
    let b2 := add_content (numberPrefix sep st.cursor line_numbers) true content_elements
    { cursor := b2.cursor + 1,
      out_lines := st.out_lines ++ [b2.parts],
      line_infos := st.line_infos ++
        [{ content := b2.parts,
           offset := { start := st.cursor, stop := b2.cursor },
           bbox := content_elements.head?.bind (fun e => e.bbox),
           words := b2.winfos }] }

/-- `reflow_page_with_line_numbers_and_offsets`. -/
def reflow_page_with_line_numbers_and_offsets (page_data : PageData) (sep : Str)
    (current_offset : Nat) : Str × PageOffsetInfo :=
  let page_number := page_data.pageNumber
  let elements := extract_lines_from_page page_data
  if elements.isEmpty then
    ([], { page_number := page_number,
           offset := { start := current_offset, stop := current_offset } })
  else
    let line_groups := group_lines_by_vertical_position elements (3/20)
    let final := line_groups.foldl (process_group sep)
      { cursor := current_offset, out_lines := [], line_infos := [] }
    (joinSep nl final.out_lines,
     { page_number := page_number,
       offset := { start := current_offset, stop := final.cursor },
       lines := final.line_infos })

/-- `f"\n<!-- Page {page_number} -->\n"`, the marker of the offset cell. -/
def page_marker (n : Int) : Str :=
  nl ++ strOf "<!-- Page " ++ intToStr n ++ strOf " -->" ++ nl

/-- Document-loop state: `output_parts`, `offset_mapping.pages`, and the
global `current_offset`. -/
structure DocSt where
  output_parts : List Str
  map_pages : List PageOffsetInfo
  cursor : Nat
deriving DecidableEq

/-- The `for page in pages` loop of `reflow_document_with_offsets`: skip
filtered pages; without a filter emit the page marker (advancing the
cursor); reflow the page at the current cursor; when the page text is
nonempty append it, advance the cursor by its length (plus one inter-page
newline without a filter), and record the page's offset info. -/
def docLoop (target_page : Option Int) (sep : Str) : DocSt → List PageData → DocSt
  | st, [] => st
  | st, page :: rest =>
    if skipPage target_page page.pageNumber then docLoop target_page sep st rest
    else
      let st1 : DocSt :=
        match target_page with
        | none =>
          let pm := page_marker page.pageNumber
          { output_parts := st.output_parts ++ [pm],
            map_pages := st.map_pages,
            cursor := st.cursor + pm.length }
        | some _ => st
      let pr := reflow_page_with_line_numbers_and_offsets page sep st1.cursor
      if pr.1.isEmpty then docLoop target_page sep st1 rest
      else
        docLoop target_page sep
          { output_parts := st1.output_parts ++ [pr.1],
            map_pages := st1.map_pages ++ [pr.2],
            cursor := st1.cursor + pr.1.length +
              (match target_page with | none => 1 | some _ => 0) } rest

/-- `reflow_document_with_offsets`.  The final text is
`'\n'.join(output_parts)` without a filter, and otherwise
`output_parts[1] if len(output_parts) > 1 else output_parts[0] if
output_parts else ""`. -/
def reflow_document_with_offsets (json_data : DocumentJson)
    (target_page : Option Int) (sep : Str) :
    Except Str (Str × OffsetMapping) :=
  match json_data.contents with
  | [] => .error (strOf "No contents found in JSON data")
  | content :: _ =>
    if content.pages.isEmpty then
      .error (strOf "No pages found in document content")
    else
      let st := docLoop target_page sep
        { output_parts := [], map_pages := [], cursor := 0 } content.pages
      let reflowed_content :=
        match target_page with
        | none => joinSep nl st.output_parts
        | some _ =>
          match st.output_parts with
          | [] => []
          | [p] => p
          | _ :: p :: _ => p
      .ok (reflowed_content, { pages := st.map_pages })

end ReflowOff

namespace ReflowOff

/-- `spans[i].end <= spans[i+1].start`, the monotone non-overlap relation on
adjacent spans. -/
def spanLe (a b : Span) : Prop := a.stop ≤ b.start

/-- Spans `l` confined to the window `[lo, hi]` and chained: each span starts
no earlier than the previous one stopped. -/
def chainLe : Nat → List Span → Nat → Prop
  | lo, [], hi => lo ≤ hi
  | lo, s :: rest, hi => lo ≤ s.start ∧ s.start ≤ s.stop ∧ chainLe s.stop rest hi

/-- Word spans of a list of line infos, in emission order. -/
def wordSpansOfLines : List LineOffsetInfo → List Span
  | [] => []
  | li :: rest => li.words.map (fun w => w.offset) ++ wordSpansOfLines rest

/-- Line spans of a list of page infos, in emission order. -/
def lineSpansOfPages : List PageOffsetInfo → List Span
  | [] => []
  | p :: rest => p.lines.map (fun li => li.offset) ++ lineSpansOfPages rest

/-- Word spans of a list of page infos, in emission order. -/
def wordSpansOfPages : List PageOffsetInfo → List Span
  | [] => []
  | p :: rest => wordSpansOfLines p.lines ++ wordSpansOfPages rest

/-- Page spans of an offset mapping, in emission order. -/
def pageSpans (m : OffsetMapping) : List Span := m.pages.map (fun p => p.offset)

/-- Line spans of an offset mapping, in emission order. -/
def lineSpans (m : OffsetMapping) : List Span := lineSpansOfPages m.pages

/-- Word spans of an offset mapping, in emission order. -/
def wordSpans (m : OffsetMapping) : List Span := wordSpansOfPages m.pages

/-- Total length of the emitted lines, one newline per line included. -/
def emittedLen (lines : List Str) : Nat := (lines.map (fun l => l.length + 1)).sum

/-- Invariant of the page-assembly state: the cursor sits exactly one newline
past the emitted lines, and the recorded line and word spans are chained
inside the window `[c0, cursor]`. -/
def pinv (c0 : Nat) (st : PageState) : Prop :=
  st.cursor = c0 + emittedLen st.out_lines ∧
  chainLe c0 (st.line_infos.map (fun li => li.offset)) st.cursor ∧
  chainLe c0 (wordSpansOfLines st.line_infos) st.cursor

/-- Invariant of the document-loop state in whole-document mode: all three
span streams are chained inside `[0, cursor]`. -/
def dinvN (st : DocSt) : Prop :=
  chainLe 0 (st.map_pages.map (fun p => p.offset)) st.cursor ∧
  chainLe 0 (lineSpansOfPages st.map_pages) st.cursor ∧
  chainLe 0 (wordSpansOfPages st.map_pages) st.cursor

end ReflowOff


/-- Unicode decimal-digit property (category Nd): the characters `int()`
accepts, each carrying a decimal value.  The modelled repertoire is the
ASCII digits and the Arabic-Indic digits U+0660-U+0669; decimal digits of
other scripts behave the same way and are outside the table. -/
def isDecimalDigit (c : Char) : Bool :=
  c.isDigit || (0x660 ≤ c.toNat && c.toNat ≤ 0x669)

/-- Python's per-character `str.isdigit` property (Numeric_Type Digit or
Decimal): every decimal digit, plus digit-like characters with no decimal
value that `int()` rejects — modelled here by the superscript digits
U+00B2, U+00B3, U+00B9, U+2070 and U+2074-U+2079. -/
def isDigitLikeChar (c : Char) : Bool :=
  isDecimalDigit c || c.toNat = 0xB2 || c.toNat = 0xB3 || c.toNat = 0xB9 ||
    c.toNat = 0x2070 || (0x2074 ≤ c.toNat && c.toNat ≤ 0x2079)

/-- Decimal value of a digit character of the modelled repertoire. -/
def decDigitVal (c : Char) : Nat :=
  if c.isDigit then c.toNat - '0'.toNat
  else if 0x660 ≤ c.toNat && c.toNat ≤ 0x669 then c.toNat - 0x660
  else 0

/-- Base-10 value of a string of decimal digits, as `int()` computes it
(mixed scripts allowed, each digit contributing its decimal value). -/
def strDecVal (s : Str) : Nat := s.foldl (fun a c => a * 10 + decDigitVal c) 0

/-- Python `str.isdigit()` over the modelled repertoire: nonempty and every
character digit-like. -/
def py_isdigit (s : Str) : Bool := !s.isEmpty && s.all isDigitLikeChar

/-- Python `int(s)` on a string that already passed `isdigit()` (the only
call site in `is_line_number`): succeeds with the base-10 value when every
character is a decimal digit, and raises `ValueError` otherwise — e.g. on
the superscript `"²"`. -/
def py_int_digits (s : Str) : Except Str Nat :=
  if s.all isDecimalDigit then .ok (strDecVal s)
  else .error (strOf "invalid literal for int() with base 10")

/-- `is_line_number` (the same line of code in both variants) with Python's
exception path modelled: `content.strip().isdigit()` is evaluated first and
short-circuits to `False`; when it holds, `int(content.strip())` may raise
`ValueError` on digit-like characters without a decimal value; otherwise
the `1 <= n <= 99` bound decides.  The total ASCII classifiers
`Reflow.is_line_number` / `ReflowOff.is_line_number` used by the extraction
pipeline agree with this function on the ASCII inputs the pipeline claims
range over. -/
def is_line_number_checked (content : Str) : Except Str Bool :=
  if py_isdigit (pstrip content) then
    match py_int_digits (pstrip content) with
    | .error e => .error e
    | .ok n => .ok (decide (1 ≤ n) && decide (n ≤ 99))
  else .ok false

/-! ## Concrete inputs for the scenario claims -/

/-- Source descriptor of the `"1"` margin number in the spec scenario. -/
def srcNum : Str := strOf "D(1,0.1,0.5,0.3,0.5,0.3,0.9,0.1,0.9)"

/-- Source descriptor of the `"INDEX"` content unit in the spec scenario. -/
def srcIdx : Str := strOf "D(1,0.5,0.5,2.1,0.5,2.1,0.9,0.5,0.9)"

/-- The scenario page: a `"1"` margin number and an `"INDEX"` content unit on
the same visual row. -/
def pageC3 : PageData :=
  { pageNumber := 1,
    lines := [{ content := strOf "1", source := srcNum },
              { content := strOf "INDEX", source := srcIdx }] }

/-- A one-page document with the single content line `"A"`. -/
def docC1 : DocumentJson :=
  { contents := [{ kind := strOf "document",
                   pages := [{ pageNumber := 1,
                               lines := [{ content := strOf "A", source := srcNum }] }] }] }

/-- The reflowed text the offset variant produces for `docC1` without a
target-page filter. -/
def docC1Text : Str := strOf "\n<!-- Page 1 -->\n\nA"

/-- The offset mapping the offset variant produces for `docC1` without a
target-page filter. -/
def docC1Map : ReflowOff.OffsetMapping :=
  { pages := [{ page_number := 1, offset := { start := 17, stop := 19 },
                lines := [{ content := strOf "A",
                            offset := { start := 17, stop := 18 },
                            bbox := some srcNum,
                            words := [{ content := strOf "A",
                                        offset := { start := 17, stop := 18 },
                                        bbox := srcNum }] }] }] }

/-- A document with two pages both declared as page 3 (page numbers are not
required to be distinct by the input shape). -/
def docC2 : DocumentJson :=
  { contents := [{ kind := strOf "document",
                   pages := [{ pageNumber := 3,
                               lines := [{ content := strOf "A", source := srcNum }] },
                             { pageNumber := 3,
                               lines := [{ content := strOf "B", source := srcIdx }] }] }] }

/-- The offset mapping produced for `docC2` with target page 3. -/
def docC2Map : ReflowOff.OffsetMapping :=
  { pages := [{ page_number := 3, offset := { start := 0, stop := 2 },
                lines := [{ content := strOf "A",
                            offset := { start := 0, stop := 1 },
                            bbox := some srcNum,
                            words := [{ content := strOf "A",
                                        offset := { start := 0, stop := 1 },
                                        bbox := srcNum }] }] },
              { page_number := 3, offset := { start := 1, stop := 3 },
                lines := [{ content := strOf "B",
                            offset := { start := 1, stop := 2 },
                            bbox := some srcIdx,
                            words := [{ content := strOf "B",
                                        offset := { start := 1, stop := 2 },
                                        bbox := srcIdx }] }] }] }

def lnWitElemOff : ReflowOff.LineElement :=
  { content := strOf "7", y_position := 1/2, x_position := 1/10,
    page_number := 1, is_line_number := true }

def lnWitElemPlain : Reflow.LineElement :=
  { content := strOf "7", y_position := 1/2, x_position := 1/10,
    page_number := 1, is_line_number := true }

def e8a : ReflowOff.LineElement :=
  { content := strOf "AA", y_position := 0, x_position := 0,
    page_number := 1, is_line_number := false }

def e8b : ReflowOff.LineElement :=
  { content := strOf "BB", y_position := 3/20, x_position := 0,
    page_number := 1, is_line_number := false }

def e8c : ReflowOff.LineElement :=
  { content := strOf "CC", y_position := 1/10, x_position := 0,
    page_number := 1, is_line_number := false }

def goodLineA : RawLine := { content := strOf "A", source := srcNum }

def goodLineB : RawLine := { content := strOf "B", source := srcIdx }

def badLine : RawLine := { content := strOf "HELLO", source := strOf "D(1,bad)" }

def docWithBad : DocumentJson :=
  ⟨[{ kind := strOf "document",
      pages := [{ pageNumber := 1, lines := [goodLineA, badLine, goodLineB] }] }]⟩

def docWithoutBad : DocumentJson :=
  ⟨[{ kind := strOf "document",
      pages := [{ pageNumber := 1, lines := [goodLineA, goodLineB] }] }]⟩

def deadPage : PageData := { pageNumber := 2, lines := [{ content := strOf "·", source := srcNum }] }

def docW2 : DocumentJson :=
  { contents := [{ kind := strOf "document",
                   pages := [{ pageNumber := 1,
                               lines := [{ content := strOf "1", source := srcNum },
                                         { content := strOf "INDEX", source := srcIdx }] },
                             { pageNumber := 2,
                               lines := [{ content := strOf "OK", source := srcIdx }] }] }] }

def docW2Text : Str := strOf "\n<!-- Page 1 -->\n\n1 | INDEX\n\n<!-- Page 2 -->\n\nOK"

def docW2Map : ReflowOff.OffsetMapping :=
  { pages := [{ page_number := 1, offset := { start := 17, stop := 27 },
                lines := [{ content := strOf "1 | INDEX",
                            offset := { start := 17, stop := 26 },
                            bbox := some srcIdx,
                            words := [{ content := strOf "1",
                                        offset := { start := 17, stop := 18 },
                                        bbox := srcNum },
                                      { content := strOf "INDEX",
                                        offset := { start := 21, stop := 26 },
                                        bbox := srcIdx }] }] },
              { page_number := 2, offset := { start := 44, stop := 47 },
                lines := [{ content := strOf "OK",
                            offset := { start := 44, stop := 46 },
                            bbox := some srcIdx,
                            words := [{ content := strOf "OK",
                                        offset := { start := 44, stop := 46 },
                                        bbox := srcIdx }] }] }] }


/-! ## Claim theorems -/

/-- C3: reflowing the scenario page (`"1"` margin number at the left,
`"INDEX"` content unit on the same row) with separator `" | "` produces the
single output line `"1 | INDEX"`, recording the WordSpan `[0,1]` for `"1"`
and the WordSpan `[4,9]` for `"INDEX"`. -/
theorem claim_C3_scenario :
    ReflowOff.reflow_page_with_line_numbers_and_offsets pageC3 (strOf " | ") 0 =
      (strOf "1 | INDEX",
       { page_number := 1, offset := { start := 0, stop := 10 },
         lines := [{ content := strOf "1 | INDEX",
                     offset := { start := 0, stop := 9 },
                     bbox := some srcIdx,
                     words := [{ content := strOf "1", offset := { start := 0, stop := 1 },
                                 bbox := srcNum },
                               { content := strOf "INDEX", offset := { start := 4, stop := 9 },
                                 bbox := srcIdx }] }] }) := by
  decide

/-- C1: evaluation at the failing input.  In whole-document mode (no
target-page filter) the `'\n'.join` separator inserted after the page marker
is never added to the offset ledger, so the recorded spans are shifted: for
`docC1` the mapping records the line/word span `[17,18]` with content `"A"`,
but `reflowedText[17:18]` is the newline, not `"A"`.  This contradicts the
round-trip property the claim (and the notebook's own offset-accuracy test)
states for all valid inputs. -/
theorem claim_C1_eval :
    ReflowOff.reflow_document_with_offsets docC1 none (strOf " | ") = .ok (docC1Text, docC1Map) ∧
    pyslice docC1Text 17 18 ≠ strOf "A" := by
  constructor
  · decide
  · decide

/-- C2, counterexample: for a document whose two pages are both declared as
page 3, extracting with target page 3 yields the page spans `[0,2]` and
`[1,3]` — `2 ≤ 1` fails, so the PageSpan stream is not monotone
non-overlapping as the claim states for every valid input. -/
theorem claim_C2_cex :
    ReflowOff.reflow_document_with_offsets docC2 (some 3) (strOf " | ") = .ok (strOf "B", docC2Map) ∧
    ¬ List.Chain' ReflowOff.spanLe (ReflowOff.pageSpans docC2Map) := by
  constructor
  · decide
  · simp [ReflowOff.pageSpans, docC2Map, ReflowOff.spanLe]

/-- C6, counterexample: on the quadrilateral `(1,2,1,6,2,6,2,1)` the parser
returns `left=1, top=2, right=2, bottom=6` (the code's min/max formulas on
`x = (1,1,2,2)`, `y = (2,6,6,1)`), not `left=1, top=1, right=6, bottom=2` as
the claim states. -/
theorem claim_C6_cex :
    Reflow.parse_source_coordinates (strOf "D(1,1,2,1,6,2,6,2,1)") = .ok (1, 1, 2, 2, 6) ∧
    Reflow.parse_source_coordinates (strOf "D(1,1,2,1,6,2,6,2,1)") ≠ .ok (1, 1, 1, 6, 2) := by
  constructor
  · decide
  · decide

/-- C6, amended: the quadrilateral `(1,2,1,6,2,6,2,1)` normalizes to
`left=1, top=2, right=2, bottom=6`; the axis-aligned part of the claim is
unchanged: `left=1, top=2, width=3, height=4` gives `right=4, bottom=6`. -/
theorem claim_C6_amended :
    Reflow.parse_source_coordinates (strOf "D(1,1,2,1,6,2,6,2,1)") = .ok (1, 1, 2, 2, 6) ∧
    Reflow.parse_source_coordinates (strOf "D(1,1,2,3,4)") = .ok (1, 1, 2, 4, 6) := by
  constructor
  · decide
  · decide

theorem mem_insertByKey {α : Type} (key : α → ℚ) (b : α) (l : List α) (a : α) :
    a ∈ insertByKey key b l ↔ a = b ∨ a ∈ l := by
  induction l with
  | nil => simp [insertByKey]
  | cons c l ih =>
    simp only [insertByKey]
    split
    · simp
    · simp [ih]
      tauto

theorem mem_sortByKey {α : Type} (key : α → ℚ) (l : List α) (a : α) :
    a ∈ sortByKey key l ↔ a ∈ l := by
  induction l with
  | nil => simp [sortByKey]
  | cons c l ih =>
    simp only [sortByKey, List.foldr] at ih ⊢
    rw [mem_insertByKey, ih, List.mem_cons]

/-- C4: a row whose content-unit set is empty after classification (every
unit is a line number) contributes nothing: the offset-tracking variant
leaves the whole page state — emitted lines, recorded spans, and ledger
cursor — unchanged, and the plain variant emits no output line. -/
theorem claim_C4_row_drop :
    (∀ (sep : Str) (st : ReflowOff.PageState) (g : List ReflowOff.LineElement),
        (∀ e ∈ g, e.is_line_number = true) →
        ReflowOff.process_group sep st g = st) ∧
    (∀ (sep : Str) (out : List Str) (g : List Reflow.LineElement),
        (∀ e ∈ g, e.is_line_number = true) →
        Reflow.process_group sep out g = out) := by
  constructor
  · intro sep st g h
    have hf : (sortByKey (fun e => e.x_position) g).filter
        (fun e => !e.is_line_number) = [] := by
      rw [List.filter_eq_nil_iff]
      intro e he
      rw [mem_sortByKey] at he
      simp [h e he]
    simp [ReflowOff.process_group, hf]
  · intro sep out g h
    have hf : (sortByKey (fun e => e.x_position) g).filter
        (fun e => !e.is_line_number) = [] := by
      rw [List.filter_eq_nil_iff]
      intro e he
      rw [mem_sortByKey] at he
      simp [h e he]
    simp [Reflow.process_group, hf]



/-- C4, witness: a row holding only the margin-number unit `"7"` leaves the
offset state `⟨5, [], []⟩` and the plain output list unchanged. -/
theorem claim_C4_witness :
    ReflowOff.process_group (strOf " | ")
      { cursor := 5, out_lines := [], line_infos := [] } [lnWitElemOff] =
      { cursor := 5, out_lines := [], line_infos := [] } ∧
    Reflow.process_group (strOf " | ") [] [lnWitElemPlain] = [] := by
  constructor
  · exact claim_C4_row_drop.1 (strOf " | ") _ [lnWitElemOff] (by decide)
  · exact claim_C4_row_drop.2 (strOf " | ") [] [lnWitElemPlain] (by decide)


theorem decimal_isDigitLike (c : Char) (h : isDecimalDigit c = true) :
    isDigitLikeChar c = true := by
  simp [isDigitLikeChar, h]

/-- C7, counterexample: on the superscript `"²"` (U+00B2) `str.isdigit()`
is true but `int()` raises, so `is_line_number` raises `ValueError`
instead of returning `False` as the claim states for every string that is
not a line number. -/
theorem claim_C7_cex :
    is_line_number_checked (strOf "²") =
      .error (strOf "invalid literal for int() with base 10") ∧
    is_line_number_checked (strOf "²") ≠ .ok false := by
  constructor
  · decide
  · decide

/-- C7, amended: `is_line_number(text)` returns `True` iff the trimmed text
is nonempty and composed entirely of decimal digits (Unicode Nd, non-ASCII
digits included) with integer value in `[1, 99]`; it raises `ValueError`
exactly when the trimmed text passes `str.isdigit()` but contains a
digit-like character with no decimal value (such as `"²"`); on every other
string it returns `False`. -/
theorem claim_C7_amended (text : Str) :
    (is_line_number_checked text = .ok true ↔
      (pstrip text ≠ [] ∧ (∀ c ∈ pstrip text, isDecimalDigit c = true) ∧
       1 ≤ strDecVal (pstrip text) ∧ strDecVal (pstrip text) ≤ 99)) ∧
    ((∃ e, is_line_number_checked text = .error e) ↔
      (py_isdigit (pstrip text) = true ∧
       ¬ (pstrip text).all isDecimalDigit = true)) ∧
    ((py_isdigit (pstrip text) = false ∨
      ((pstrip text).all isDecimalDigit = true ∧
       ¬ (1 ≤ strDecVal (pstrip text) ∧ strDecVal (pstrip text) ≤ 99))) →
      is_line_number_checked text = .ok false) := by
  by_cases hd : py_isdigit (pstrip text) = true
  · by_cases ha : (pstrip text).all isDecimalDigit = true
    · have hrun : is_line_number_checked text =
          .ok (decide (1 ≤ strDecVal (pstrip text)) &&
               decide (strDecVal (pstrip text) ≤ 99)) := by
        unfold is_line_number_checked py_int_digits
        rw [if_pos hd, if_pos ha]
      have hne : pstrip text ≠ [] := by
        unfold py_isdigit at hd
        simp only [Bool.and_eq_true, Bool.not_eq_true'] at hd
        rw [← List.isEmpty_eq_false]
        exact hd.1
      refine ⟨?_, ?_, ?_⟩
      · rw [hrun]
        constructor
        · intro hok
          have hb := Except.ok.inj hok
          simp only [Bool.and_eq_true, decide_eq_true_eq] at hb
          exact ⟨hne, List.all_eq_true.mp ha, hb.1, hb.2⟩
        · rintro ⟨-, -, h1, h2⟩
          simp [h1, h2]
      · rw [hrun]
        simp [ha]
      · intro hcase
        rcases hcase with h | ⟨-, hout⟩
        · exact absurd hd (by simp [h])
        · rw [hrun]
          have : ¬ (1 ≤ strDecVal (pstrip text) ∧ strDecVal (pstrip text) ≤ 99) := hout
          simp only [Except.ok.injEq]
          rw [Bool.and_eq_false_iff]
          by_cases h1 : 1 ≤ strDecVal (pstrip text)
          · right
            simp only [decide_eq_false_iff_not]
            intro h2
            exact this ⟨h1, h2⟩
          · left
            simp [h1]
    · have hrun : is_line_number_checked text =
          .error (strOf "invalid literal for int() with base 10") := by
        unfold is_line_number_checked py_int_digits
        rw [if_pos hd, if_neg ha]
      refine ⟨?_, ?_, ?_⟩
      · rw [hrun]
        constructor
        · intro h
          exact Except.noConfusion h
        · rintro ⟨-, hdec, -, -⟩
          exact absurd (List.all_eq_true.mpr hdec) ha
      · rw [hrun]
        constructor
        · intro _
          exact ⟨hd, ha⟩
        · intro _
          exact ⟨_, rfl⟩
      · intro hcase
        rcases hcase with h | ⟨hall, -⟩
        · exact absurd hd (by simp [h])
        · exact absurd hall ha
  · have hrun : is_line_number_checked text = .ok false := by
      unfold is_line_number_checked
      rw [if_neg hd]
    refine ⟨?_, ?_, ?_⟩
    · rw [hrun]
      constructor
      · intro h
        have := Except.ok.inj h
        exact Bool.noConfusion this
      · rintro ⟨hne, hdec, -, -⟩
        exfalso
        apply hd
        unfold py_isdigit
        simp only [Bool.and_eq_true, Bool.not_eq_true']
        refine ⟨by rw [List.isEmpty_eq_false]; exact hne, ?_⟩
        exact List.all_eq_true.mpr (fun c hc => decimal_isDigitLike c (hdec c hc))
    · rw [hrun]
      constructor
      · rintro ⟨e, he⟩
        exact Except.noConfusion he
      · rintro ⟨h, -⟩
        exact absurd h hd
    · intro _
      exact hrun

/-- C7, witness: the amended characterization applied at concrete inputs —
`" 42 "` and the Arabic-Indic `"٤٢"` (value 42) are accepted, `"hello"`
returns `False`. -/
theorem claim_C7_amended_witness :
    is_line_number_checked (strOf " 42 ") = .ok true ∧
    is_line_number_checked (strOf "٤٢") = .ok true ∧
    is_line_number_checked (strOf "hello") = .ok false :=
  ⟨(claim_C7_amended (strOf " 42 ")).1.mpr (by decide),
   (claim_C7_amended (strOf "٤٢")).1.mpr (by decide),
   (claim_C7_amended (strOf "hello")).2.2 (Or.inl (by decide))⟩

theorem normalize_coords_none (coords : List ℚ) (h8 : coords.length ≠ 8)
    (h4 : coords.length ≠ 4) : normalize_coords coords = none := by
  unfold normalize_coords
  split
  · simp at h8
  · simp at h4
  · rfl

/-- C5: on any source whose descriptor matches the `D(page, coords)` grammar
and whose coordinates all convert, both variants of
`parse_source_coordinates` normalize an 8-coordinate quadrilateral to
`left = min(x1,x4)`, `top = min(y1,y2)`, `right = max(x2,x3)`,
`bottom = max(y3,y4)`; a 4-value axis-aligned box to `right = left+width`,
`bottom = top+height`; and fail with a coordinate-count `ValueError` for any
other coordinate count. -/
theorem claim_C5_parse (source : Str) (p : Nat) (body : Str) (coords : List ℚ)
    (hm : matchD source = some (p, body))
    (hf : parseFloats (splitOn ',' body) = some coords) :
    (∀ x1 y1 x2 y2 x3 y3 x4 y4, coords = [x1, y1, x2, y2, x3, y3, x4, y4] →
       Reflow.parse_source_coordinates source =
         .ok (p, min x1 x4, min y1 y2, max x2 x3, max y3 y4) ∧
       ReflowOff.parse_source_coordinates source =
         .ok (p, min x1 x4, min y1 y2, max x2 x3, max y3 y4, source)) ∧
    (∀ l t w h, coords = [l, t, w, h] →
       Reflow.parse_source_coordinates source = .ok (p, l, t, l + w, t + h) ∧
       ReflowOff.parse_source_coordinates source = .ok (p, l, t, l + w, t + h, source)) ∧
    (coords.length ≠ 8 → coords.length ≠ 4 →
       Reflow.parse_source_coordinates source =
         .error (strOf "Unexpected coordinate count in source: " ++ source) ∧
       ReflowOff.parse_source_coordinates source =
         .error (strOf "Unexpected coordinate count: " ++ source)) := by
  refine ⟨?_, ?_, ?_⟩
  · intro x1 y1 x2 y2 x3 y3 x4 y4 hc
    subst hc
    simp [Reflow.parse_source_coordinates, ReflowOff.parse_source_coordinates,
      hm, hf, normalize_coords]
  · intro l t w h hc
    subst hc
    simp [Reflow.parse_source_coordinates, ReflowOff.parse_source_coordinates,
      hm, hf, normalize_coords]
  · intro h8 h4
    simp [Reflow.parse_source_coordinates, ReflowOff.parse_source_coordinates,
      hm, hf, normalize_coords_none coords h8 h4]

/-- C5, witness: the three branches at concrete descriptors — an
8-coordinate quadrilateral, a 4-value box, and a 3-value descriptor that is
rejected with the coordinate-count error. -/
theorem claim_C5_witness :
    Reflow.parse_source_coordinates (strOf "D(7,1,2,1,6,2,6,2,1)") = .ok (7, 1, 2, 2, 6) ∧
    Reflow.parse_source_coordinates (strOf "D(7,1,2,3,4)") = .ok (7, 1, 2, 4, 6) ∧
    Reflow.parse_source_coordinates (strOf "D(7,1,2,3)") =
      .error (strOf "Unexpected coordinate count in source: " ++ strOf "D(7,1,2,3)") := by
  refine ⟨?_, ?_, ?_⟩
  · have h := (claim_C5_parse (strOf "D(7,1,2,1,6,2,6,2,1)") 7 (strOf "1,2,1,6,2,6,2,1")
      [1, 2, 1, 6, 2, 6, 2, 1] (by decide) (by decide)).1 1 2 1 6 2 6 2 1 rfl
    rw [h.1]
    norm_num
  · have h := (claim_C5_parse (strOf "D(7,1,2,3,4)") 7 (strOf "1,2,3,4")
      [1, 2, 3, 4] (by decide) (by decide)).2.1 1 2 3 4 rfl
    rw [h.1]
    norm_num
  · exact ((claim_C5_parse (strOf "D(7,1,2,3)") 7 (strOf "1,2,3")
      [1, 2, 3] (by decide) (by decide)).2.2 (by decide) (by decide)).1




/-- C8, counterexample: two units whose `topY` difference is exactly the
tolerance `0.15` are NOT grouped together by the offset-tracking variant
(its join test is strict `<`), although the claim says a unit joins whenever
the difference is no more than the tolerance. -/
theorem claim_C8_cex :
    |e8b.y_position - e8a.y_position| ≤ 3/20 ∧
    ReflowOff.group_lines_by_vertical_position [e8a, e8b] (3/20) = [[e8a], [e8b]] ∧
    [[e8a], [e8b]] ≠ [[e8a, e8b]] := by
  refine ⟨by decide, by decide, by decide⟩

/-- C8, amended: after the stable ascending sort by `topY`, a unit joins the
current group exactly when its `topY` differs from the anchor (the group's
first unit) by strictly less than the tolerance in the offset-tracking
variant, and by at most the tolerance in the plain variant; otherwise the
group closes and the unit anchors a new group.  Stated as the step law of
each grouping walk plus the two-element characterization at the default
tolerance `0.15`. -/
theorem claim_C8_amended :
    (∀ (tol anchor_y : ℚ) (cur : List ReflowOff.LineElement)
       (e : ReflowOff.LineElement) (rest : List ReflowOff.LineElement),
       ReflowOff.gather tol anchor_y cur (e :: rest) =
         if |e.y_position - anchor_y| < tol then
           ReflowOff.gather tol anchor_y (cur ++ [e]) rest
         else cur :: ReflowOff.gather tol e.y_position [e] rest) ∧
    (∀ (tol current_y : ℚ) (cur : List Reflow.LineElement)
       (e : Reflow.LineElement) (rest : List Reflow.LineElement),
       Reflow.gather tol current_y cur (e :: rest) =
         if |e.y_position - current_y| ≤ tol then
           Reflow.gather tol current_y (cur ++ [e]) rest
         else cur :: Reflow.gather tol e.y_position [e] rest) ∧
    (∀ e1 e2 : ReflowOff.LineElement, e1.y_position ≤ e2.y_position →
       ReflowOff.group_lines_by_vertical_position [e1, e2] (3/20) =
         if |e2.y_position - e1.y_position| < 3/20 then [[e1, e2]] else [[e1], [e2]]) ∧
    (∀ e1 e2 : Reflow.LineElement, e1.y_position ≤ e2.y_position →
       Reflow.group_lines_by_vertical_position [e1, e2] (3/20) =
         if |e2.y_position - e1.y_position| ≤ 3/20 then [[e1, e2]] else [[e1], [e2]]) := by
  refine ⟨fun tol ay cur e rest => rfl, fun tol cy cur e rest => rfl, ?_, ?_⟩
  · intro e1 e2 h
    simp only [ReflowOff.group_lines_by_vertical_position, sortByKey, List.foldr,
      insertByKey, if_pos h, ReflowOff.gather]
    split
    · rfl
    · rfl
  · intro e1 e2 h
    simp only [Reflow.group_lines_by_vertical_position, sortByKey, List.foldr,
      insertByKey, if_pos h, Reflow.gather]
    split
    · rfl
    · rfl

/-- C8, witness: the step laws at a concrete state, and the two-element form
at `y`-difference `0.1` (grouped by both variants). -/
theorem claim_C8_witness :
    ReflowOff.gather (3/20) 0 [e8a] [e8c] = [[e8a, e8c]] ∧
    Reflow.group_lines_by_vertical_position
      [{ content := strOf "AA", y_position := 0, x_position := 0,
         page_number := 1, is_line_number := false },
       { content := strOf "BB", y_position := 1/10, x_position := 0,
         page_number := 1, is_line_number := false }] (3/20) =
      [[{ content := strOf "AA", y_position := 0, x_position := 0,
          page_number := 1, is_line_number := false },
        { content := strOf "BB", y_position := 1/10, x_position := 0,
          page_number := 1, is_line_number := false }]] := by
  constructor
  · rw [claim_C8_amended.1]
    decide
  · rw [claim_C8_amended.2.2.2 _ _ (by decide)]
    decide

theorem extract_loop_skips_bad (pre post : List RawLine) (bad : RawLine) (msg : Str)
    (hb : Reflow.parse_source_coordinates bad.source = .error msg) :
    Reflow.extract_loop (pre ++ bad :: post) = Reflow.extract_loop (pre ++ post) := by
  induction pre with
  | nil =>
    simp only [List.nil_append, Reflow.extract_loop]
    split
    · rfl
    · rw [hb]
  | cons l pre ih =>
    simp only [List.cons_append, Reflow.extract_loop]
    split
    · exact ih
    · split
      · exact ih
      · split
        · exact ih
        · exact congrArg _ ih

theorem reflow_page_congr (pA pB : PageData) (sep : Str)
    (h : Reflow.extract_lines_from_page pA = Reflow.extract_lines_from_page pB) :
    Reflow.reflow_page_with_line_numbers pA sep =
      Reflow.reflow_page_with_line_numbers pB sep := by
  unfold Reflow.reflow_page_with_line_numbers
  rw [h]

theorem buildParts_congr_middle (target : Option Int) (sep : Str)
    (ps1 ps2 : List PageData) (pgA pgB : PageData)
    (hn : pgA.pageNumber = pgB.pageNumber)
    (h : Reflow.reflow_page_with_line_numbers pgA sep =
         Reflow.reflow_page_with_line_numbers pgB sep) :
    Reflow.buildParts target sep (ps1 ++ pgA :: ps2) =
      Reflow.buildParts target sep (ps1 ++ pgB :: ps2) := by
  induction ps1 with
  | nil =>
    simp only [List.nil_append, Reflow.buildParts, hn, h]
  | cons p ps1 ih =>
    simp only [List.cons_append, Reflow.buildParts, List.append_eq, ih]

/-- C9: per-unit geometry failures are local — a line whose source raises
`ValueError` (such as `"D(1,bad)"`) is skipped while every other line of the
page is still extracted and reflowed, and the document result is unchanged —
whereas document-structure failures (empty `result.contents`, or a first
content entry with no pages) abort the whole operation with the descriptive
`ValueError` messages of the source. -/
theorem claim_C9_errors :
    (∀ (pre post : List RawLine) (bad : RawLine) (msg : Str),
       Reflow.parse_source_coordinates bad.source = .error msg →
       Reflow.extract_loop (pre ++ bad :: post) = Reflow.extract_loop (pre ++ post)) ∧
    (Reflow.parse_source_coordinates (strOf "D(1,bad)") =
       .error (strOf "could not convert string to float")) ∧
    (∀ (kind : Str) (crest : List ContentData) (ps1 ps2 : List PageData) (n : Int)
       (pre post : List RawLine) (bad : RawLine) (target : Option Int) (sep msg : Str),
       Reflow.parse_source_coordinates bad.source = .error msg →
       Reflow.reflow_document
           ⟨{ kind := kind, pages := ps1 ++ { pageNumber := n, lines := pre ++ bad :: post } :: ps2 } :: crest⟩
           target sep =
         Reflow.reflow_document
           ⟨{ kind := kind, pages := ps1 ++ { pageNumber := n, lines := pre ++ post } :: ps2 } :: crest⟩
           target sep) ∧
    (∀ (target : Option Int) (sep : Str),
       Reflow.reflow_document ⟨[]⟩ target sep =
         .error (strOf "No contents found in JSON data")) ∧
    (∀ (kind : Str) (crest : List ContentData) (target : Option Int) (sep : Str),
       Reflow.reflow_document ⟨{ kind := kind, pages := [] } :: crest⟩ target sep =
         .error (strOf "No pages found in document content")) := by
  refine ⟨extract_loop_skips_bad, by decide, ?_, fun target sep => rfl, fun kind crest target sep => rfl⟩
  intro kind crest ps1 ps2 n pre post bad target sep msg hb
  have hpage : Reflow.reflow_page_with_line_numbers
      { pageNumber := n, lines := pre ++ bad :: post } sep =
      Reflow.reflow_page_with_line_numbers { pageNumber := n, lines := pre ++ post } sep := by
    apply reflow_page_congr
    exact extract_loop_skips_bad pre post bad msg hb
  have h1 : (ps1 ++ { pageNumber := n, lines := pre ++ bad :: post } :: ps2).isEmpty = false := by
    simp [List.isEmpty_iff]
  have h2 : (ps1 ++ ({ pageNumber := n, lines := pre ++ post } : PageData) :: ps2).isEmpty = false := by
    simp [List.isEmpty_iff]
  simp only [Reflow.reflow_document, h1, h2]
  rw [buildParts_congr_middle target sep ps1 ps2 { pageNumber := n, lines := pre ++ bad :: post }
    { pageNumber := n, lines := pre ++ post } rfl hpage]






/-- C9, witness: inserting the malformed line `"D(1,bad)"` between two valid
lines changes nothing — the page still reflows to `"A B"` — while the two
structural failures raise their descriptive errors. -/
theorem claim_C9_witness :
    Reflow.reflow_document docWithBad none (strOf " | ") =
      Reflow.reflow_document docWithoutBad none (strOf " | ") ∧
    Reflow.reflow_document docWithBad none (strOf " | ") =
      .ok (strOf "<!-- Page 1 -->\n\nA B\n") ∧
    Reflow.reflow_document ⟨[]⟩ none (strOf " | ") =
      .error (strOf "No contents found in JSON data") ∧
    Reflow.reflow_document ⟨[{ kind := strOf "document", pages := [] }]⟩ none (strOf " | ") =
      .error (strOf "No pages found in document content") := by
  refine ⟨?_, by decide, claim_C9_errors.2.2.2.1 none (strOf " | "),
    claim_C9_errors.2.2.2.2 (strOf "document") [] none (strOf " | ")⟩
  exact claim_C9_errors.2.2.1 (strOf "document") [] [] [] 1 [goodLineA] [goodLineB]
    badLine none (strOf " | ") (strOf "could not convert string to float") (by decide)

theorem buildParts_append (target : Option Int) (sep : Str) (l1 l2 : List PageData) :
    Reflow.buildParts target sep (l1 ++ l2) =
      Reflow.buildParts target sep l1 ++ Reflow.buildParts target sep l2 := by
  induction l1 with
  | nil => simp [Reflow.buildParts]
  | cons p l1 ih =>
    simp only [List.cons_append, Reflow.buildParts, List.append_eq, ih]
    split
    · rfl
    · rw [List.append_assoc]

/-- C10: in the plain `reflow_document` without a target-page filter, a
page contributes the parts `[marker, text, blank]` exactly when its reflowed
text is nonempty and contributes nothing otherwise, so a page from which no
elements can be extracted adds no marker, no text and no blank line: the
document output is unchanged when such a page is removed (as long as the
page list stays nonempty). -/
theorem claim_C10_markers :
    (∀ (sep : Str) (p : PageData),
       Reflow.buildParts none sep [p] =
         if (Reflow.reflow_page_with_line_numbers p sep).isEmpty then []
         else [Reflow.page_marker p.pageNumber,
               Reflow.reflow_page_with_line_numbers p sep, []]) ∧
    (∀ (sep kind : Str) (crest : List ContentData) (ps1 ps2 : List PageData)
       (dead : PageData),
       Reflow.reflow_page_with_line_numbers dead sep = [] →
       ps1 ++ ps2 ≠ [] →
       Reflow.reflow_document ⟨{ kind := kind, pages := ps1 ++ dead :: ps2 } :: crest⟩ none sep =
         Reflow.reflow_document ⟨{ kind := kind, pages := ps1 ++ ps2 } :: crest⟩ none sep) := by
  constructor
  · intro sep p
    simp only [Reflow.buildParts, skipPage]
    split
    · simp_all
    · simp_all [Reflow.buildParts]
  · intro sep kind crest ps1 ps2 dead hdead hne
    have h1 : (ps1 ++ dead :: ps2).isEmpty = false := by simp [List.isEmpty_iff]
    have h2 : (ps1 ++ ps2).isEmpty = false := by simp [List.isEmpty_iff, hne]
    simp only [Reflow.reflow_document, h1, h2]
    rw [buildParts_append, buildParts_append]
    have hd : Reflow.buildParts none sep (dead :: ps2) = Reflow.buildParts none sep ps2 := by
      simp [Reflow.buildParts, skipPage, hdead]
    rw [hd]


/-- C10, witness: a page holding only the noise glyph `"·"` reflows to the
empty string and contributes nothing to the document output: removing it
leaves the result — a single marker and the line `"A B"` — unchanged. -/
theorem claim_C10_witness :
    Reflow.reflow_document
        ⟨[{ kind := strOf "document",
            pages := [{ pageNumber := 1, lines := [goodLineA, goodLineB] }, deadPage] }]⟩
        none (strOf " | ") =
      Reflow.reflow_document docWithoutBad none (strOf " | ") ∧
    Reflow.buildParts none (strOf " | ") [deadPage] = [] := by
  constructor
  · exact claim_C10_markers.2 (strOf " | ") (strOf "document") []
      [{ pageNumber := 1, lines := [goodLineA, goodLineB] }] [] deadPage
      (by decide) (by decide)
  · rw [claim_C10_markers.1]
    decide

namespace ReflowOff

theorem chainLe_le {lo hi : Nat} {l : List Span} (h : chainLe lo l hi) : lo ≤ hi := by
  induction l generalizing lo with
  | nil => exact h
  | cons s rest ih =>
    obtain ⟨h1, h2, h3⟩ := h
    exact le_trans (le_trans h1 h2) (ih h3)

theorem chainLe_mono {lo lo' hi hi' : Nat} {l : List Span} (h : chainLe lo l hi)
    (hlo : lo' ≤ lo) (hhi : hi ≤ hi') : chainLe lo' l hi' := by
  induction l generalizing lo lo' with
  | nil => exact le_trans hlo (le_trans h hhi)
  | cons s rest ih =>
    obtain ⟨h1, h2, h3⟩ := h
    exact ⟨le_trans hlo h1, h2, ih h3 le_rfl⟩

theorem chainLe_append {lo mid hi : Nat} {l1 l2 : List Span}
    (h1 : chainLe lo l1 mid) (h2 : chainLe mid l2 hi) :
    chainLe lo (l1 ++ l2) hi := by
  induction l1 generalizing lo with
  | nil => exact chainLe_mono h2 h1 le_rfl
  | cons s rest ih =>
    obtain ⟨ha, hb, hc⟩ := h1
    exact ⟨ha, hb, ih hc⟩

theorem chainLe_chain' {lo hi : Nat} {l : List Span} (h : chainLe lo l hi) :
    List.Chain' spanLe l := by
  induction l generalizing lo with
  | nil => exact List.chain'_nil
  | cons s rest ih =>
    cases rest with
    | nil => exact List.chain'_singleton s
    | cons r rest' =>
      rw [List.chain'_cons]
      exact ⟨h.2.2.1, ih h.2.2⟩

theorem wordSpansOfLines_append (l1 l2 : List LineOffsetInfo) :
    wordSpansOfLines (l1 ++ l2) = wordSpansOfLines l1 ++ wordSpansOfLines l2 := by
  induction l1 with
  | nil => simp [wordSpansOfLines]
  | cons li l1 ih => simp [wordSpansOfLines, ih]

theorem lineSpansOfPages_append (l1 l2 : List PageOffsetInfo) :
    lineSpansOfPages (l1 ++ l2) = lineSpansOfPages l1 ++ lineSpansOfPages l2 := by
  induction l1 with
  | nil => simp [lineSpansOfPages]
  | cons p l1 ih => simp [lineSpansOfPages, ih]

theorem wordSpansOfPages_append (l1 l2 : List PageOffsetInfo) :
    wordSpansOfPages (l1 ++ l2) = wordSpansOfPages l1 ++ wordSpansOfPages l2 := by
  induction l1 with
  | nil => simp [wordSpansOfPages]
  | cons p l1 ih => simp [wordSpansOfPages, ih]

theorem add_content_cursor (b : BuildSt) (first : Bool) (l : List LineElement) :
    b.cursor ≤ (add_content b first l).cursor := by
  induction l generalizing b first with
  | nil => exact le_rfl
  | cons e rest ih =>
    simp only [add_content]
    split
    · refine le_trans ?_ (ih _ false)
      exact Nat.le_add_right _ _
    · refine le_trans ?_ (ih _ false)
      simp only []
      omega

theorem add_content_chain (x : Nat) (b : BuildSt) (first : Bool) (l : List LineElement)
    (h : chainLe x (b.winfos.map (fun w => w.offset)) b.cursor) :
    chainLe x ((add_content b first l).winfos.map (fun w => w.offset))
      (add_content b first l).cursor := by
  induction l generalizing b first with
  | nil => exact h
  | cons e rest ih =>
    simp only [add_content]
    split
    · apply ih
      simp only [List.map_append, List.map_cons, List.map_nil]
      exact chainLe_append h ⟨le_rfl, Nat.le_add_right _ _, le_rfl⟩
    · apply ih
      simp only [List.map_append, List.map_cons, List.map_nil]
      exact chainLe_append (chainLe_mono h le_rfl (Nat.le_succ _))
        ⟨le_rfl, Nat.le_add_right _ _, le_rfl⟩

theorem add_content_parts (k : Nat) (b : BuildSt) (first : Bool) (l : List LineElement)
    (h : b.cursor = k + b.parts.length) :
    (add_content b first l).cursor = k + (add_content b first l).parts.length := by
  induction l generalizing b first with
  | nil => exact h
  | cons e rest ih =>
    simp only [add_content]
    split
    · apply ih
      simp only [List.length_append, h]
      omega
    · apply ih
      simp only [List.length_append, List.length_cons, h, List.length_nil]
      omega

end ReflowOff

namespace ReflowOff

theorem emittedLen_append_single (l : List Str) (t : Str) :
    emittedLen (l ++ [t]) = emittedLen l + (t.length + 1) := by
  simp [emittedLen]

theorem joinSep_nl_length (lines : List Str) (h : lines ≠ []) :
    emittedLen lines = (joinSep nl lines).length + 1 := by
  induction lines with
  | nil => exact absurd rfl h
  | cons t ls ih =>
    cases ls with
    | nil => simp [emittedLen, joinSep]
    | cons t2 ls2 =>
      have hih := ih (List.cons_ne_nil _ _)
      have h1 : emittedLen (t :: t2 :: ls2) = (t.length + 1) + emittedLen (t2 :: ls2) := by
        simp [emittedLen]
      have h2 : joinSep nl (t :: t2 :: ls2) = t ++ nl ++ joinSep nl (t2 :: ls2) := rfl
      rw [h1, hih, h2]
      have hnl : nl.length = 1 := rfl
      simp only [List.length_append, hnl]
      omega

theorem numberPrefix_cursor (sep : Str) (c : Nat) (l : List LineElement) :
    (numberPrefix sep c l).cursor = c + (numberPrefix sep c l).parts.length := by
  cases l with
  | nil => simp [numberPrefix]
  | cons n rest =>
    simp [numberPrefix, List.length_append]
    omega

theorem numberPrefix_chain (sep : Str) (c : Nat) (l : List LineElement) :
    chainLe c ((numberPrefix sep c l).winfos.map (fun w => w.offset))
      (numberPrefix sep c l).cursor := by
  cases l with
  | nil => exact le_rfl
  | cons n rest =>
    refine ⟨le_rfl, Nat.le_add_right _ _, ?_⟩
    show c + n.content.length ≤ c + n.content.length + sep.length
    exact Nat.le_add_right _ _

theorem process_group_pinv (sep : Str) (c0 : Nat) (st : PageState)
    (g : List LineElement) (h : pinv c0 st) :
    pinv c0 (process_group sep st g) := by
  obtain ⟨hcur, hline, hword⟩ := h
  simp only [process_group]
  split
  · exact ⟨hcur, hline, hword⟩
  · set conts := (sortByKey (fun e => e.x_position) g).filter
      (fun e => !e.is_line_number) with hcont
    set nums := (sortByKey (fun e => e.x_position) g).filter
      (fun e => e.is_line_number) with hnums
    have hb2cur := add_content_parts st.cursor (numberPrefix sep st.cursor nums) true conts
      (numberPrefix_cursor sep st.cursor nums)
    have hb2chain := add_content_chain st.cursor (numberPrefix sep st.cursor nums) true conts
      (numberPrefix_chain sep st.cursor nums)
    dsimp only [pinv]
    refine ⟨?_, ?_, ?_⟩
    · rw [emittedLen_append_single, hb2cur, hcur]
      omega
    · simp only [List.map_append, List.map_cons, List.map_nil]
      refine chainLe_append hline ⟨le_rfl, ?_, Nat.le_succ _⟩
      rw [hb2cur]
      exact Nat.le_add_right _ _
    · rw [wordSpansOfLines_append]
      simp only [wordSpansOfLines, List.append_nil]
      exact chainLe_append hword (chainLe_mono hb2chain le_rfl (Nat.le_succ _))

theorem foldl_pinv (sep : Str) (c0 : Nat) (groups : List (List LineElement))
    (st : PageState) (h : pinv c0 st) :
    pinv c0 (groups.foldl (process_group sep) st) := by
  induction groups generalizing st with
  | nil => exact h
  | cons g rest ih => exact ih _ (process_group_pinv sep c0 st g h)

theorem reflow_page_spans (page : PageData) (sep : Str) (c0 : Nat) :
    (reflow_page_with_line_numbers_and_offsets page sep c0).2.offset.start = c0 ∧
    chainLe c0 ((reflow_page_with_line_numbers_and_offsets page sep c0).2.lines.map
        (fun li => li.offset))
      (reflow_page_with_line_numbers_and_offsets page sep c0).2.offset.stop ∧
    chainLe c0 (wordSpansOfLines (reflow_page_with_line_numbers_and_offsets page sep c0).2.lines)
      (reflow_page_with_line_numbers_and_offsets page sep c0).2.offset.stop ∧
    ((reflow_page_with_line_numbers_and_offsets page sep c0).1 ≠ [] →
      (reflow_page_with_line_numbers_and_offsets page sep c0).2.offset.stop =
        c0 + (reflow_page_with_line_numbers_and_offsets page sep c0).1.length + 1) ∧
    c0 ≤ (reflow_page_with_line_numbers_and_offsets page sep c0).2.offset.stop := by
  by_cases hE : (extract_lines_from_page page).isEmpty = true
  · have heq : reflow_page_with_line_numbers_and_offsets page sep c0 =
        ([], { page_number := page.pageNumber,
               offset := { start := c0, stop := c0 }, lines := [] }) := by
      simp only [reflow_page_with_line_numbers_and_offsets, hE, if_true]
    rw [heq]
    exact ⟨rfl, le_rfl, le_rfl, fun h => absurd rfl h, le_rfl⟩
  · rw [Bool.not_eq_true] at hE
    have hinv := foldl_pinv sep c0
      (group_lines_by_vertical_position (extract_lines_from_page page) (3/20))
      { cursor := c0, out_lines := [], line_infos := [] }
      ⟨by simp [emittedLen], le_rfl, le_rfl⟩
    obtain ⟨hcur, hline, hword⟩ := hinv
    have heq : reflow_page_with_line_numbers_and_offsets page sep c0 =
        (joinSep nl (List.foldl (process_group sep) { cursor := c0, out_lines := [], line_infos := [] }
          (group_lines_by_vertical_position (extract_lines_from_page page) (3/20))).out_lines,
         { page_number := page.pageNumber,
           offset := { start := c0, stop := (List.foldl (process_group sep) { cursor := c0, out_lines := [], line_infos := [] }
          (group_lines_by_vertical_position (extract_lines_from_page page) (3/20))).cursor },
           lines := (List.foldl (process_group sep) { cursor := c0, out_lines := [], line_infos := [] }
          (group_lines_by_vertical_position (extract_lines_from_page page) (3/20))).line_infos }) := by
      simp only [reflow_page_with_line_numbers_and_offsets, hE, Bool.false_eq_true, if_false]
    rw [heq]
    refine ⟨rfl, hline, hword, ?_, ?_⟩
    · intro hne
      have hol : (List.foldl (process_group sep) { cursor := c0, out_lines := [], line_infos := [] }
          (group_lines_by_vertical_position (extract_lines_from_page page) (3/20))).out_lines ≠ [] := by
        intro hempty
        apply hne
        show joinSep nl (List.foldl (process_group sep) { cursor := c0, out_lines := [], line_infos := [] }
          (group_lines_by_vertical_position (extract_lines_from_page page) (3/20))).out_lines = []
        rw [hempty]
        rfl
      show (List.foldl (process_group sep) { cursor := c0, out_lines := [], line_infos := [] }
          (group_lines_by_vertical_position (extract_lines_from_page page) (3/20))).cursor = c0 + (joinSep nl (List.foldl (process_group sep) { cursor := c0, out_lines := [], line_infos := [] }
          (group_lines_by_vertical_position (extract_lines_from_page page) (3/20))).out_lines).length + 1
      rw [hcur, joinSep_nl_length _ hol]
      omega
    · show c0 ≤ (List.foldl (process_group sep) { cursor := c0, out_lines := [], line_infos := [] }
          (group_lines_by_vertical_position (extract_lines_from_page page) (3/20))).cursor
      rw [hcur]
      exact Nat.le_add_right _ _

end ReflowOff

namespace ReflowOff

theorem dinvN_cursor_mono (st : DocSt) (parts2 : List Str) (c2 : Nat)
    (h : dinvN st) (hc : st.cursor ≤ c2) :
    dinvN { output_parts := parts2, map_pages := st.map_pages, cursor := c2 } := by
  obtain ⟨h1, h2, h3⟩ := h
  exact ⟨chainLe_mono h1 le_rfl hc, chainLe_mono h2 le_rfl hc, chainLe_mono h3 le_rfl hc⟩

theorem dinvN_append_page (st : DocSt) (info : PageOffsetInfo) (c2 : Nat)
    (parts2 : List Str) (h : dinvN st)
    (hstart : info.offset.start = st.cursor)
    (hline : chainLe st.cursor (info.lines.map (fun li => li.offset)) info.offset.stop)
    (hword : chainLe st.cursor (wordSpansOfLines info.lines) info.offset.stop)
    (hse : st.cursor ≤ info.offset.stop)
    (hstop : info.offset.stop ≤ c2) :
    dinvN { output_parts := parts2, map_pages := st.map_pages ++ [info], cursor := c2 } := by
  obtain ⟨h1, h2, h3⟩ := h
  refine ⟨?_, ?_, ?_⟩
  · simp only [List.map_append, List.map_cons, List.map_nil]
    refine chainLe_append h1 ⟨hstart.ge, ?_, hstop⟩
    rw [hstart]
    exact hse
  · show chainLe 0 (lineSpansOfPages (st.map_pages ++ [info])) c2
    rw [lineSpansOfPages_append]
    refine chainLe_append h2 ?_
    show chainLe st.cursor (lineSpansOfPages [info]) c2
    simp only [lineSpansOfPages, List.append_nil]
    exact chainLe_mono hline le_rfl hstop
  · show chainLe 0 (wordSpansOfPages (st.map_pages ++ [info])) c2
    rw [wordSpansOfPages_append]
    refine chainLe_append h3 ?_
    show chainLe st.cursor (wordSpansOfPages [info]) c2
    simp only [wordSpansOfPages, List.append_nil]
    exact chainLe_mono hword le_rfl hstop

theorem docLoop_dinvN (sep : Str) (pages : List PageData) (st : DocSt)
    (h : dinvN st) : dinvN (docLoop none sep st pages) := by
  induction pages generalizing st with
  | nil => exact h
  | cons page rest ih =>
    show dinvN (docLoop none sep st (page :: rest))
    rw [docLoop]
    simp only [skipPage, Bool.false_eq_true, if_false]
    set pm := page_marker page.pageNumber with hpm
    set st1 : DocSt := { output_parts := st.output_parts ++ [pm],
                         map_pages := st.map_pages,
                         cursor := st.cursor + pm.length } with hst1
    have h1 : dinvN st1 := dinvN_cursor_mono st _ _ h (Nat.le_add_right _ _)
    set pr := reflow_page_with_line_numbers_and_offsets page sep st1.cursor with hpr
    split
    · exact ih st1 h1
    · rename_i hne
      apply ih
      have rps := reflow_page_spans page sep st1.cursor
      have hne' : pr.1 ≠ [] := by
        intro hx
        rw [Bool.not_eq_true] at hne
        rw [List.isEmpty_eq_false] at hne
        exact hne hx
      have hstop : pr.2.offset.stop = st1.cursor + pr.1.length + 1 :=
        rps.2.2.2.1 hne'
      exact dinvN_append_page st1 pr.2 _ _ h1 rps.1 rps.2.1 rps.2.2.1
        (by rw [rps.1] at rps; exact rps.2.2.2.2)
        (by rw [hstop])

end ReflowOff

namespace ReflowOff

theorem docLoop_all_skip (target : Option Int) (sep : Str) (pages : List PageData)
    (st : DocSt) (h : ∀ p ∈ pages, skipPage target p.pageNumber = true) :
    docLoop target sep st pages = st := by
  induction pages generalizing st with
  | nil => rfl
  | cons page rest ih =>
    show docLoop target sep st (page :: rest) = st
    simp only [docLoop]
    rw [if_pos (h page (List.mem_cons_self page rest))]
    exact ih st (fun p hp => h p (List.mem_cons_of_mem page hp))

theorem docLoop_single_match (t : Int) (sep : Str) (mp : PageData)
    (l2 : List PageData) (st : DocSt)
    (hm : skipPage (some t) mp.pageNumber = false)
    (h2 : ∀ p ∈ l2, skipPage (some t) p.pageNumber = true) :
    docLoop (some t) sep st (mp :: l2) =
      (if (reflow_page_with_line_numbers_and_offsets mp sep st.cursor).1.isEmpty = true then st
       else { output_parts := st.output_parts ++
                [(reflow_page_with_line_numbers_and_offsets mp sep st.cursor).1],
              map_pages := st.map_pages ++
                [(reflow_page_with_line_numbers_and_offsets mp sep st.cursor).2],
              cursor := st.cursor +
                (reflow_page_with_line_numbers_and_offsets mp sep st.cursor).1.length + 0 }) := by
  have hstep : docLoop (some t) sep st (mp :: l2) =
      (if (reflow_page_with_line_numbers_and_offsets mp sep st.cursor).1.isEmpty = true then
         docLoop (some t) sep st l2
       else docLoop (some t) sep
         { output_parts := st.output_parts ++
             [(reflow_page_with_line_numbers_and_offsets mp sep st.cursor).1],
           map_pages := st.map_pages ++
             [(reflow_page_with_line_numbers_and_offsets mp sep st.cursor).2],
           cursor := st.cursor +
             (reflow_page_with_line_numbers_and_offsets mp sep st.cursor).1.length + 0 } l2) := by
    simp only [docLoop, hm, Bool.false_eq_true, if_false]
  rw [hstep]
  by_cases hE : (reflow_page_with_line_numbers_and_offsets mp sep st.cursor).1.isEmpty = true
  · rw [if_pos hE, if_pos hE, docLoop_all_skip _ _ _ _ h2]
  · rw [if_neg hE, if_neg hE, docLoop_all_skip _ _ _ _ h2]

theorem filter_le_one_split {α : Type} (p : α → Bool) (l : List α)
    (h : (l.filter p).length ≤ 1) :
    (∀ a ∈ l, p a = false) ∨
    ∃ l1 m l2, l = l1 ++ m :: l2 ∧ p m = true ∧
      (∀ a ∈ l1, p a = false) ∧ (∀ a ∈ l2, p a = false) := by
  induction l with
  | nil => exact Or.inl (fun a ha => absurd ha (List.not_mem_nil a))
  | cons a l ih =>
    cases pa : p a with
    | false =>
      rw [List.filter_cons_of_neg (by simp [pa])] at h
      rcases ih h with hall | ⟨l1, m, l2, heq, hm, hl1, hl2⟩
      · refine Or.inl ?_
        intro b hb
        rcases List.mem_cons.mp hb with rfl | hb'
        · exact pa
        · exact hall b hb'
      · refine Or.inr ⟨a :: l1, m, l2, by simp [heq], hm, ?_, hl2⟩
        intro b hb
        rcases List.mem_cons.mp hb with rfl | hb'
        · exact pa
        · exact hl1 b hb'
    | true =>
      rw [List.filter_cons_of_pos (by simp [pa])] at h
      simp only [List.length_cons] at h
      have hnil : l.filter p = [] := List.length_eq_zero.mp (by omega)
      refine Or.inr ⟨[], a, l, rfl, pa, fun b hb => absurd hb (List.not_mem_nil b), ?_⟩
      intro b hb
      by_contra hfalse
      have : b ∈ l.filter p := List.mem_filter.mpr ⟨hb, by
        cases pb : p b
        · exact absurd pb hfalse
        · rfl⟩
      rw [hnil] at this
      exact absurd this (List.not_mem_nil b)

end ReflowOff

namespace ReflowOff

theorem docLoop_skip_prefix (target : Option Int) (sep : Str) (l1 rest : List PageData)
    (st : DocSt) (h : ∀ p ∈ l1, skipPage target p.pageNumber = true) :
    docLoop target sep st (l1 ++ rest) = docLoop target sep st rest := by
  induction l1 generalizing st with
  | nil => rfl
  | cons page l1 ih =>
    show docLoop target sep st (page :: (l1 ++ rest)) = _
    simp only [docLoop]
    rw [if_pos (h page (List.mem_cons_self page l1))]
    exact ih st (fun p hp => h p (List.mem_cons_of_mem page hp))

end ReflowOff

/-- C2, amended: in emission order, the PageSpan, LineSpan and WordSpan
streams each satisfy `spans[i].end ≤ spans[i+1].start` across the whole
document, for every input the orchestrator accepts — provided that, when a
target-page filter is supplied, at most one page matches it (the input shape
does not force distinct declared page numbers, and two pages matching the
filter produce overlapping PageSpans, see the counterexample). -/
theorem claim_C2_monotone (json : DocumentJson) (target : Option Int) (sep T : Str)
    (m : ReflowOff.OffsetMapping)
    (hok : ReflowOff.reflow_document_with_offsets json target sep = .ok (T, m))
    (hone : ∀ (t : Int) (c : ContentData) (crest : List ContentData),
        target = some t → json.contents = c :: crest →
        (c.pages.filter (fun p => !skipPage target p.pageNumber)).length ≤ 1) :
    List.Chain' ReflowOff.spanLe (ReflowOff.pageSpans m) ∧
    List.Chain' ReflowOff.spanLe (ReflowOff.lineSpans m) ∧
    List.Chain' ReflowOff.spanLe (ReflowOff.wordSpans m) := by
  cases hc : json.contents with
  | nil =>
    rw [ReflowOff.reflow_document_with_offsets, hc] at hok
    dsimp only at hok
    exact Except.noConfusion hok
  | cons c crest =>
    by_cases hp : c.pages.isEmpty = true
    · rw [ReflowOff.reflow_document_with_offsets, hc] at hok
      dsimp only at hok
      rw [if_pos hp] at hok
      exact Except.noConfusion hok
    · rw [ReflowOff.reflow_document_with_offsets, hc] at hok
      dsimp only at hok
      rw [if_neg hp] at hok
      have hpair := Except.ok.inj hok
      have hm : m = { pages := (ReflowOff.docLoop target sep
          { output_parts := [], map_pages := [], cursor := 0 } c.pages).map_pages } := by
        have hsnd := congrArg Prod.snd hpair
        dsimp only at hsnd
        exact hsnd.symm
      clear hok hpair
      cases target with
      | none =>
        have hd := ReflowOff.docLoop_dinvN sep c.pages
          { output_parts := [], map_pages := [], cursor := 0 }
          ⟨le_rfl, le_rfl, le_rfl⟩
        obtain ⟨hpg, hln, hwd⟩ := hd
        subst hm
        exact ⟨ReflowOff.chainLe_chain' hpg, ReflowOff.chainLe_chain' hln,
          ReflowOff.chainLe_chain' hwd⟩
      | some t =>
        have hcnt := hone t c crest rfl hc
        rcases ReflowOff.filter_le_one_split _ _ hcnt with hall | ⟨l1, mp, l2, heq, hmp, hl1, hl2⟩
        · have hskip : ∀ p ∈ c.pages, skipPage (some t) p.pageNumber = true := by
            intro p hpp
            have := hall p hpp
            simpa using this
          rw [ReflowOff.docLoop_all_skip _ _ _ _ hskip] at hm
          subst hm
          exact ⟨List.chain'_nil, List.chain'_nil, List.chain'_nil⟩
        · have hmp' : skipPage (some t) mp.pageNumber = false := by simpa using hmp
          have hs1 : ∀ p ∈ l1, skipPage (some t) p.pageNumber = true := by
            intro p hpp
            have := hl1 p hpp
            simpa using this
          have hs2 : ∀ p ∈ l2, skipPage (some t) p.pageNumber = true := by
            intro p hpp
            have := hl2 p hpp
            simpa using this
          rw [heq, ReflowOff.docLoop_skip_prefix _ _ _ _ _ hs1,
            ReflowOff.docLoop_single_match t sep mp l2 _ hmp' hs2] at hm
          dsimp only at hm
          by_cases hE : (ReflowOff.reflow_page_with_line_numbers_and_offsets mp sep 0).1.isEmpty = true
          · rw [if_pos hE] at hm
            subst hm
            exact ⟨List.chain'_nil, List.chain'_nil, List.chain'_nil⟩
          · rw [if_neg hE] at hm
            subst hm
            have rps := ReflowOff.reflow_page_spans mp sep 0
            refine ⟨?_, ?_, ?_⟩
            · simp only [ReflowOff.pageSpans, List.nil_append, List.map_cons, List.map_nil]
              exact List.chain'_singleton _
            · simp only [ReflowOff.lineSpans, ReflowOff.lineSpansOfPages, List.nil_append,
                List.append_nil]
              exact ReflowOff.chainLe_chain' rps.2.1
            · simp only [ReflowOff.wordSpans, ReflowOff.wordSpansOfPages, List.nil_append,
                List.append_nil]
              exact ReflowOff.chainLe_chain' rps.2.2.1

/-- C2, witness: the two-page document `docW2` in whole-document mode — the
theorem applies with its hypotheses discharged at this concrete input, and
all three span streams chain. -/
theorem claim_C2_witness :
    List.Chain' ReflowOff.spanLe (ReflowOff.pageSpans docW2Map) ∧
    List.Chain' ReflowOff.spanLe (ReflowOff.lineSpans docW2Map) ∧
    List.Chain' ReflowOff.spanLe (ReflowOff.wordSpans docW2Map) :=
  claim_C2_monotone docW2 none (strOf " | ") docW2Text docW2Map (by decide)
    (fun t c crest h _ => Option.noConfusion h)
